import Mathlib

/-!
Shallow embedding of `bigflow/dataproc.py` (the ephemeral-cluster PySpark job
orchestrator) and proofs about its behaviour.

The embedding models:
* Python string truthiness (`a or b`) and dict assignment (`d[k] = v`);
* `PySparkJob.__init__`'s env-field initialisation, `_generate_internal_jobid`,
  `_prepare_driver_callable`, `_prepare_pyspark_properties`;
* `_wait_for_job_to_finish` as a fuel-indexed polling loop over a status stream;
* `PySparkJob.run` / `_with_temp_cluster` as a trace semantics over an oracle of
  remote-call outcomes, with Python `try/finally` semantics (an exception raised
  in a `finally` block replaces the in-flight exception);
* `generate_driver_script`'s base-85 payload encoding (`base64.b85encode`) and
  its decoder (`base64.b85decode`), and `_PySparkDriverWrapper.__call__`.
-/

set_option maxHeartbeats 1000000

namespace Dataproc

/-- Python string truthiness fallback `a or b` where `a : str` (falsy iff empty). -/
def pyOrStr (a b : String) : String := if a = "" then b else a

/-- Python truthiness fallback `a or b` where `a : Optional[str]` (falsy iff `None` or empty). -/
def pyOrOpt (a : Option String) (b : String) : String :=
  match a with
  | none => b
  | some s => if s = "" then b else s

/-- Embedding of `self.env = env or bigflow.configuration.current_env() or 'none'`
(line 66); `current_env()` is an external input, passed as a parameter. -/
def initEnvField (env currentEnv : Option String) : String :=
  pyOrOpt env (pyOrOpt currentEnv "none")

/-- Python dict lookup `d.get(k)` on an insertion-ordered association list. -/
def pyLookup {V : Type} : List (String × V) → String → Option V
  | [], _ => none
  | p :: rest, k => if p.1 = k then some p.2 else pyLookup rest k

/-- Python dict assignment `d[k] = v`: replace the (first) binding of `k` in
place, or append a new binding when `k` is absent. -/
def pyDictSet {V : Type} : List (String × V) → String → V → List (String × V)
  | [], k, v => [(k, v)]
  | p :: rest, k, v => if p.1 = k then (k, v) :: rest else p :: pyDictSet rest k v

/-- Embedding of `_PySparkDriverWrapper` (lines 182-193): a serialised work unit
holding the callable, positional args, keyword args and env-var overrides. -/
structure PySparkDriverWrapper (C V : Type) where
  callable : C
  args : List V
  kwargs : List (String × V)
  envs : List (String × String)

/-- Embedding of `PySparkJob._prepare_driver_callable` (lines 101-110).
The code copies `self.driver_arguments` (`kwargs = dict(self.driver_arguments)`),
assigns `kwargs['runtime'] = runtime` on the copy, and builds the env-override
map `{'env': self.env}` when `self.env` is truthy.  The second component of the
result is `self.driver_arguments` as the method leaves it (the copy, not the
descriptor's own dict, is mutated). -/
def prepare_driver_callable {C V : Type} (driver_callable : C)
    (driver_arguments : List (String × V)) (env : String) (runtime : V) :
    PySparkDriverWrapper C V × List (String × V) :=
  let kwargs := pyDictSet driver_arguments "runtime" runtime
  let envs := if env = "" then [] else [("env", env)]
  (⟨driver_callable, [], kwargs, envs⟩, driver_arguments)

/-- Embedding of `PySparkJob._prepare_pyspark_properties` (lines 132-140). -/
def prepare_pyspark_properties (jid env : String) : List (String × String) :=
  let ps := [("spark.app.name", jid)]
  if env = "" then ps
  else ps ++ [("spark.workerEnv.bf_env", env), ("spark.executorEnv.bf_env", env)]

/-- Python `str.lower()`: lowercase each character. -/
def strLower (s : String) : String := String.mk (s.data.map Char.toLower)

/-- The alphabet `string.ascii_lowercase + string.digits` used for the run-id suffix. -/
def lowercaseAndDigits : List Char :=
  ['a', 'b', 'c', 'd', 'e', 'f', 'g', 'h', 'i', 'j', 'k', 'l', 'm',
   'n', 'o', 'p', 'q', 'r', 's', 't', 'u', 'v', 'w', 'x', 'y', 'z',
   '0', '1', '2', '3', '4', '5', '6', '7', '8', '9']

/-- Embedding of `random.choices(string.ascii_lowercase + string.digits, k=10)`:
the uniform random source is modelled as a stream `pick` of indices into the
36-character alphabet. -/
def randomChoices10 (pick : Nat → Nat) : String :=
  String.mk ((List.range 10).map (fun n => lowercaseAndDigits.getD (pick n % 36) 'a'))

/-- Wall-clock reading used by `datetime.datetime.now()`. -/
structure FixedClock where
  year : Nat
  month : Nat
  day : Nat
  hour : Nat
  minute : Nat
  second : Nat

/-- Zero-padded two-digit decimal rendering (strftime `%m`, `%d`, `%H`, `%M`, `%S`). -/
def pad2 (n : Nat) : String := String.mk [Nat.digitChar (n / 10 % 10), Nat.digitChar (n % 10)]

/-- Zero-padded four-digit decimal rendering (strftime `%Y` for years 0-9999). -/
def pad4 (n : Nat) : String :=
  String.mk [Nat.digitChar (n / 1000 % 10), Nat.digitChar (n / 100 % 10),
    Nat.digitChar (n / 10 % 10), Nat.digitChar (n % 10)]

/-- Embedding of `datetime.datetime.now().strftime("%Y-%m-%d-%H%M%S")` (line 96). -/
def strftimeTimestamp (c : FixedClock) : String :=
  pad4 c.year ++ "-" ++ pad2 c.month ++ "-" ++ pad2 c.day ++ "-" ++
    pad2 c.hour ++ pad2 c.minute ++ pad2 c.second

/-- Embedding of `PySparkJob._generate_internal_jobid` (lines 94-99):
`f"{self.id.lower()}-{self.env or 'none'}-{job_timestamp}-{job_random_suffix}"`. -/
def generate_internal_jobid (jid env : String) (clock : FixedClock) (pick : Nat → Nat) : String :=
  strLower jid ++ "-" ++ pyOrStr env "none" ++ "-" ++ strftimeTimestamp clock ++ "-" ++
    randomChoices10 pick

/-- ASCII decimal digit test (`\d` on the run-id alphabet). -/
def isAsciiDigit (c : Char) : Bool := 48 ≤ c.toNat && c.toNat ≤ 57

/-- Character class `[a-z0-9]` of the run-id suffix. -/
def isLowerAlnum (c : Char) : Bool := (97 ≤ c.toNat && c.toNat ≤ 122) || isAsciiDigit c

/-- Statement that a string matches the regex
`^<idPart>-<env>-\d\x7b4\x7d-\d\x7b2\x7d-\d\x7b2\x7d-\d\x7b6\x7d-[a-z0-9]\x7b10\x7d$`. -/
def matchesRunIdPattern (idPart env s : String) : Prop :=
  ∃ y mo d hms sfx : List Char,
    s.data = idPart.data ++ ('-' :: env.data) ++ ('-' :: y) ++ ('-' :: mo) ++
      ('-' :: d) ++ ('-' :: hms) ++ ('-' :: sfx) ∧
    y.length = 4 ∧ mo.length = 2 ∧ d.length = 2 ∧ hms.length = 6 ∧ sfx.length = 10 ∧
    (∀ c ∈ y, isAsciiDigit c) ∧ (∀ c ∈ mo, isAsciiDigit c) ∧ (∀ c ∈ d, isAsciiDigit c) ∧
    (∀ c ∈ hms, isAsciiDigit c) ∧ (∀ c ∈ sfx, isLowerAlnum c)

/-! ## Job watcher (`_wait_for_job_to_finish`, lines 227-241) -/

/-- Python exception value (identified by its message). -/
structure Err where
  msg : String
deriving DecidableEq

/-- Dataproc job states as discriminated by the watcher: the three terminal
states checked in the `if/elif` chain, with `running` covering every
non-terminal state. -/
inductive JobState where
  | running
  | done
  | error
  | cancelled
deriving DecidableEq

/-- Result of one `get_job` call: `job.status.state` and `job.status.details`. -/
structure JobStatus where
  state : JobState
  details : String
deriving DecidableEq

/-- Terminal-state test: the states on which the watcher's loop stops. -/
def isTerminal : JobState → Bool
  | JobState.running => false
  | JobState.done => true
  | JobState.error => true
  | JobState.cancelled => true

/-- One iteration of the watcher's `if/elif` chain (lines 232-240): `DONE`
returns the job, `ERROR` raises `Exception(job.status.details)`, `CANCELLED`
raises `Exception("Job was CANCELLED")`, anything else continues the loop. -/
def waitCheck (s : JobStatus) : Option (Except Err Unit) :=
  match s.state with
  | JobState.done => some (Except.ok ())
  | JobState.error => some (Except.error ⟨s.details⟩)
  | JobState.cancelled => some (Except.error ⟨"Job was CANCELLED"⟩)
  | JobState.running => none

/-- Remote-interaction events recorded by the trace semantics. -/
inductive Event where
  | getBucket
  | buildEgg
  | uploadEgg
  | pickleDriver
  | uploadDriver
  | createCluster
  | submitJob
  | getJob
  | sleep (seconds : Nat)
  | downloadLog
  | deleteCluster
deriving DecidableEq

/-- Embedding of the watcher's `while True` loop: `poll i` is the status
returned by the `i`-th `get_job` call, and `fuel` bounds how many iterations we
unfold (the source loop is unbounded; a result of `none` means the loop is
still running after `fuel` polls).  Each non-terminal poll is followed by
`time.sleep(5)` (line 241), recorded as a `sleep 5` event. -/
def waitEvents (poll : Nat → JobStatus) : Nat → Nat → List Event × Option (Except Err Unit)
  | _, 0 => ([], none)
  | i, fuel + 1 =>
    match waitCheck (poll i) with
    | some r => ([Event.getJob], some r)
    | none =>
      let p := waitEvents poll (i + 1) fuel
      (Event.getJob :: Event.sleep 5 :: p.1, p.2)

/-! ## Trace semantics of `PySparkJob.run` (lines 142-179)

Each remote call's outcome is drawn from an `Oracle`.  Python `try/finally`
semantics are modelled exactly: when the `finally` block raises, its exception
replaces the in-flight one; otherwise the body's outcome propagates. -/

/-- Outcomes of the remote calls made during one `run`, in source order.
`poll` is the stream of statuses seen by `_wait_for_job_to_finish`. -/
structure Oracle where
  getBucketR : Except Err Unit
  buildEggR : Except Err Unit
  uploadEggR : Except Err Unit
  pickleR : Except Err Unit
  uploadDriverR : Except Err Unit
  createClusterR : Except Err Unit
  submitJobR : Except Err Unit
  poll : Nat → JobStatus
  getJobFinalR : Except Err Unit
  downloadLogR : Except Err Unit
  deleteClusterR : Except Err Unit

/-- Embedding of `_print_job_output_log` (lines 244-250): a `get_job` call
followed by a blob download; either may raise. -/
def printJobOutputLog (o : Oracle) : List Event × Except Err Unit :=
  match o.getJobFinalR with
  | Except.error e => ([Event.getJob], Except.error e)
  | Except.ok _ =>
    match o.downloadLogR with
    | Except.error e => ([Event.getJob, Event.downloadLog], Except.error e)
    | Except.ok _ => ([Event.getJob, Event.downloadLog], Except.ok ())

/-- Embedding of the body of the `with self._with_temp_cluster(...)` block
(lines 163-177): submit the job, then `try: _wait_for_job_to_finish(...)
finally: _print_job_output_log(...)`.  A result of `none` means the watcher is
still polling (the body has not exited), so the `finally` has not run yet. -/
def clusterBody (o : Oracle) (fuel : Nat) : List Event × Option (Except Err Unit) :=
  match o.submitJobR with
  | Except.error e => ([Event.submitJob], some (Except.error e))
  | Except.ok _ =>
    let w := waitEvents o.poll 0 fuel
    match w.2 with
    | none => (Event.submitJob :: w.1, none)
    | some r =>
      let l := printJobOutputLog o
      (Event.submitJob :: (w.1 ++ l.1),
        some (match l.2 with
              | Except.error e => Except.error e
              | Except.ok _ => r))

/-- Embedding of `_with_temp_cluster` (lines 112-130): `try: _create_cluster;
yield; finally: _delete_cluster`.  The `finally` runs both when creation itself
raises and when the body exits (normally or with an exception); if
`_delete_cluster` raises, its exception replaces the in-flight one.  A body
result of `none` (still inside the scope) means the `finally` has not run. -/
def withTempCluster (o : Oracle) (body : List Event × Option (Except Err Unit)) :
    List Event × Option (Except Err Unit) :=
  match o.createClusterR with
  | Except.error e =>
    ([Event.createCluster, Event.deleteCluster],
      some (match o.deleteClusterR with
            | Except.error e2 => Except.error e2
            | Except.ok _ => Except.error e))
  | Except.ok _ =>
    match body.2 with
    | none => (Event.createCluster :: body.1, none)
    | some r =>
      (Event.createCluster :: (body.1 ++ [Event.deleteCluster]),
        some (match o.deleteClusterR with
              | Except.error e2 => Except.error e2
              | Except.ok _ => r))

/-- Embedding of `PySparkJob.run` (lines 142-179): get the bucket, build and
upload the project egg, pickle and upload the driver script, then run the
cluster scope.  Any exception before the scope propagates immediately. -/
def runJob (o : Oracle) (fuel : Nat) : List Event × Option (Except Err Unit) :=
  match o.getBucketR with
  | Except.error e => ([Event.getBucket], some (Except.error e))
  | Except.ok _ =>
  match o.buildEggR with
  | Except.error e => ([Event.getBucket, Event.buildEgg], some (Except.error e))
  | Except.ok _ =>
  match o.uploadEggR with
  | Except.error e =>
    ([Event.getBucket, Event.buildEgg, Event.uploadEgg], some (Except.error e))
  | Except.ok _ =>
  match o.pickleR with
  | Except.error e =>
    ([Event.getBucket, Event.buildEgg, Event.uploadEgg, Event.pickleDriver],
      some (Except.error e))
  | Except.ok _ =>
  match o.uploadDriverR with
  | Except.error e =>
    ([Event.getBucket, Event.buildEgg, Event.uploadEgg, Event.pickleDriver,
      Event.uploadDriver], some (Except.error e))
  | Except.ok _ =>
    let s := withTempCluster o (clusterBody o fuel)
    ([Event.getBucket, Event.buildEgg, Event.uploadEgg, Event.pickleDriver,
      Event.uploadDriver] ++ s.1, s.2)

/-! ## Base-85 payload codec (`base64.b85encode` / `base64.b85decode`)

`generate_driver_script` (lines 196-209) embeds `base64.b85encode(pickled)` in
the script text, and the script decodes it with `base64.b85decode`.  Bytes and
output characters are modelled as `Nat` below 256 (the RFC 1924 alphabet, as
ASCII codes). -/

/-- The RFC 1924 base-85 alphabet used by `base64.b85encode`, as ASCII codes:
`0-9A-Za-z` followed by the 23 punctuation characters. -/
def b85alpha : List Nat :=
  [48, 49, 50, 51, 52, 53, 54, 55, 56, 57,
   65, 66, 67, 68, 69, 70, 71, 72, 73, 74, 75, 76, 77, 78, 79, 80, 81, 82,
   83, 84, 85, 86, 87, 88, 89, 90,
   97, 98, 99, 100, 101, 102, 103, 104, 105, 106, 107, 108, 109, 110, 111,
   112, 113, 114, 115, 116, 117, 118, 119, 120, 121, 122,
   33, 35, 36, 37, 38, 40, 41, 42, 43, 45, 59, 60, 61, 62, 63, 64, 94, 95,
   96, 123, 124, 125, 126]

/-- Character for a base-85 digit value. -/
def b85chr (v : Nat) : Nat := b85alpha.getD v 0

/-- Digit value of a base-85 character (85 when the character is not in the
alphabet, which `b85decode` treats as invalid). -/
def b85val (c : Nat) : Nat := b85alpha.indexOf c

/-- Big-endian 32-bit word of four bytes (`struct.unpack("!I")`). -/
def word32 (b0 b1 b2 b3 : Nat) : Nat := ((b0 * 256 + b1) * 256 + b2) * 256 + b3

/-- Five base-85 digits (most significant first) of a 32-bit word. -/
def enc5 (v : Nat) : List Nat :=
  [b85chr (v / 52200625 % 85), b85chr (v / 614125 % 85), b85chr (v / 7225 % 85),
   b85chr (v / 85 % 85), b85chr (v % 85)]

/-- Embedding of `base64.b85encode` (no padding): each full 4-byte group maps
to 5 characters; a final group of `k` bytes is zero-padded, encoded, and the
output truncated to `k + 1` characters. -/
def b85encode : List Nat → List Nat
  | [] => []
  | [b0] => (enc5 (word32 b0 0 0 0)).take 2
  | [b0, b1] => (enc5 (word32 b0 b1 0 0)).take 3
  | [b0, b1, b2] => (enc5 (word32 b0 b1 b2 0)).take 4
  | b0 :: b1 :: b2 :: b3 :: rest => enc5 (word32 b0 b1 b2 b3) ++ b85encode rest

/-- Decoding of one padded 5-character group of `base64.b85decode`: reject any
character outside the alphabet, recombine the digits, reject 32-bit overflow,
and emit the word's four bytes big-endian. -/
def dec5 (c0 c1 c2 c3 c4 : Nat) : Option (List Nat) :=
  if b85val c0 < 85 ∧ b85val c1 < 85 ∧ b85val c2 < 85 ∧ b85val c3 < 85 ∧ b85val c4 < 85 then
    if (((b85val c0 * 85 + b85val c1) * 85 + b85val c2) * 85 + b85val c3) * 85 + b85val c4
        < 4294967296 then
      some [((((b85val c0 * 85 + b85val c1) * 85 + b85val c2) * 85 + b85val c3) * 85
               + b85val c4) / 16777216 % 256,
            ((((b85val c0 * 85 + b85val c1) * 85 + b85val c2) * 85 + b85val c3) * 85
               + b85val c4) / 65536 % 256,
            ((((b85val c0 * 85 + b85val c1) * 85 + b85val c2) * 85 + b85val c3) * 85
               + b85val c4) / 256 % 256,
            ((((b85val c0 * 85 + b85val c1) * 85 + b85val c2) * 85 + b85val c3) * 85
               + b85val c4) % 256]
    else none
  else none

/-- Embedding of `base64.b85decode`: the input is padded with `~` (digit 84,
ASCII 126) to a multiple of 5 characters, each group is decoded, and the bytes
contributed by the padding are dropped from the final group. -/
def b85decode : List Nat → Option (List Nat)
  | [] => some []
  | c0 :: c1 :: c2 :: c3 :: c4 :: rest =>
    match dec5 c0 c1 c2 c3 c4, b85decode rest with
    | some bs, some rs => some (bs ++ rs)
    | _, _ => none
  | cs =>
    match dec5 (cs.getD 0 126) (cs.getD 1 126) (cs.getD 2 126) (cs.getD 3 126) 126 with
    | some bs => some (bs.take (cs.length - 1))
    | none => none

/-! ## Bootstrap payload semantics (`generate_driver_script`, `_PySparkDriverWrapper`) -/

/-- Record of the single invocation performed by the bootstrap: which callable
was called, with which positional and keyword arguments. -/
structure Invocation (C V : Type) where
  callable : C
  args : List V
  kwargs : List (String × V)

/-- Embedding of `os.environ.update(self.envs)` (line 192): fold each override
into the process environment with dict-assignment semantics. -/
def osEnvironUpdate (osenv overrides : List (String × String)) : List (String × String) :=
  overrides.foldl (fun acc p => pyDictSet acc p.1 p.2) osenv

/-- Embedding of `_PySparkDriverWrapper.__call__` (lines 190-193): apply the
env-var overrides, then call `self.callable(*self.args, **self.kwargs)` — and
nothing else.  Returns the updated environment and the recorded invocation. -/
def wrapperCall {C V : Type} (w : PySparkDriverWrapper C V)
    (osenv : List (String × String)) :
    List (String × String) × Invocation C V :=
  (osEnvironUpdate osenv w.envs, ⟨w.callable, w.args, w.kwargs⟩)

/-- Embedding of the payload embedded by `generate_driver_script` (line 204):
`base64.b85encode(pickle.dumps(callable))`, with `pickle.dumps` abstracted as a
serialiser `ser` (its byte output is opaque to the orchestrator). -/
def driverScriptData {C V : Type} (ser : PySparkDriverWrapper C V → List Nat)
    (w : PySparkDriverWrapper C V) : List Nat :=
  b85encode (ser w)

/-- Embedding of what the generated script executes on the remote node
(lines 206-207): `call = pickle.loads(base64.b85decode(data)); call()`, with
`pickle.loads` abstracted as `deser`.  Returns `none` if decoding or
deserialisation fails. -/
def runBootstrap {C V : Type} (deser : List Nat → Option (PySparkDriverWrapper C V))
    (data : List Nat) (osenv : List (String × String)) :
    Option (List (String × String) × Invocation C V) :=
  match b85decode data with
  | none => none
  | some pickled =>
    match deser pickled with
    | none => none
    | some w => some (wrapperCall w osenv)

/-! ## Concrete scenario data (status streams, oracles, a toy work unit) -/

/-- Status stream whose first poll is already `DONE`. -/
def pollDone : Nat → JobStatus := fun _ => ⟨JobState.done, ""⟩

/-- Status stream that never leaves `RUNNING`. -/
def pollRunning : Nat → JobStatus := fun _ => ⟨JobState.running, ""⟩

/-- Status stream whose first poll is `ERROR` with details `"boom"`. -/
def pollBoom : Nat → JobStatus := fun _ => ⟨JobState.error, "boom"⟩

/-- Oracle on which every remote call succeeds and the job finishes at once. -/
def oAllOk : Oracle where
  getBucketR := Except.ok ()
  buildEggR := Except.ok ()
  uploadEggR := Except.ok ()
  pickleR := Except.ok ()
  uploadDriverR := Except.ok ()
  createClusterR := Except.ok ()
  submitJobR := Except.ok ()
  poll := pollDone
  getJobFinalR := Except.ok ()
  downloadLogR := Except.ok ()
  deleteClusterR := Except.ok ()

/-- Oracle where job submission fails and cluster teardown also fails. -/
def oC2 : Oracle :=
  { oAllOk with
    submitJobR := Except.error ⟨"submit failed"⟩
    deleteClusterR := Except.error ⟨"teardown failed"⟩ }

/-- Oracle where the job succeeds but downloading its output log fails. -/
def oC7 : Oracle :=
  { oAllOk with downloadLogR := Except.error ⟨"log retrieval failed"⟩ }

/-- Oracle where pickling the driver callable fails. -/
def oC8 : Oracle :=
  { oAllOk with pickleR := Except.error ⟨"pickling failed"⟩ }

/-- Toy work unit for instantiating the bootstrap round-trip. -/
def wC5 : PySparkDriverWrapper Unit Nat :=
  ⟨(), [7], [("k", 3)], [("env", "dev")]⟩

/-- Toy serialiser standing in for `pickle.dumps` on `wC5`. -/
def serC5 : PySparkDriverWrapper Unit Nat → List Nat := fun _ => [0, 1, 254, 255, 17]

/-- Toy deserialiser standing in for `pickle.loads`, inverse of `serC5` on `wC5`. -/
def deserC5 : List Nat → Option (PySparkDriverWrapper Unit Nat) := fun _ => some wC5

/-- Random index stream producing the suffix `abc1234567`. -/
def demoPick : Nat → Nat := fun n => [0, 1, 2, 27, 28, 29, 30, 31, 32, 33].getD n 0

/-! ## Round-trip of the base-85 codec -/

/-- Encoding a digit value below 85 and decoding it back is the identity
(the alphabet has no duplicates). -/
theorem b85val_b85chr : ∀ d : Nat, d < 85 → b85val (b85chr d) = d := by decide

/-- The padding character `~` (ASCII 126) is the digit 84. -/
theorem b85chr_84 : b85chr 84 = 126 := rfl

/-- Evaluation of `dec5` on five in-range digit characters: all validity checks
pass (the recombined word is assumed within 32 bits) and the word's four
big-endian bytes come back. -/
theorem dec5_vals (d0 d1 d2 d3 d4 : Nat) (h0 : d0 < 85) (h1 : d1 < 85) (h2 : d2 < 85)
    (h3 : d3 < 85) (h4 : d4 < 85)
    (hW : (((d0 * 85 + d1) * 85 + d2) * 85 + d3) * 85 + d4 < 4294967296) :
    dec5 (b85chr d0) (b85chr d1) (b85chr d2) (b85chr d3) (b85chr d4) =
      some [((((d0 * 85 + d1) * 85 + d2) * 85 + d3) * 85 + d4) / 16777216 % 256,
            ((((d0 * 85 + d1) * 85 + d2) * 85 + d3) * 85 + d4) / 65536 % 256,
            ((((d0 * 85 + d1) * 85 + d2) * 85 + d3) * 85 + d4) / 256 % 256,
            ((((d0 * 85 + d1) * 85 + d2) * 85 + d3) * 85 + d4) % 256] := by
  have e0 := b85val_b85chr d0 h0
  have e1 := b85val_b85chr d1 h1
  have e2 := b85val_b85chr d2 h2
  have e3 := b85val_b85chr d3 h3
  have e4 := b85val_b85chr d4 h4
  simp only [dec5, e0, e1, e2, e3, e4]
  rw [if_pos ⟨h0, h1, h2, h3, h4⟩, if_pos hW]

/-- Division helper: dropping a remainder below the divisor. -/
theorem div_extract (r q n : Nat) (hn : 0 < n) (hr : r < n) : (r + q * n) / n = q := by
  rw [Nat.add_mul_div_right _ _ hn, Nat.div_eq_of_lt hr, Nat.zero_add]

/-- Partial base-85 digit sum: the top two digits of a word plus the remainder
modulo 85^3 recompose the word. -/
theorem b85_psum1 (x : Nat) (hx : x < 4437053125) :
    (x / 52200625 % 85) * 52200625 + (x / 614125 % 85) * 614125 + x % 614125 = x := by
  have hd0 : x / 52200625 % 85 = x / 52200625 :=
    Nat.mod_eq_of_lt ((Nat.div_lt_iff_lt_mul (by norm_num)).2 (by omega))
  have c4 := Nat.div_add_mod (x / 614125) 85
  rw [Nat.div_div_eq_div_mul, show 614125 * 85 = 52200625 by norm_num] at c4
  conv_rhs => rw [← Nat.div_add_mod x 614125, ← c4]
  rw [hd0]; ring

/-- Partial base-85 digit sum: the top three digits of a word plus the
remainder modulo 85^2 recompose the word. -/
theorem b85_psum2 (x : Nat) (hx : x < 4437053125) :
    (x / 52200625 % 85) * 52200625 + (x / 614125 % 85) * 614125 + (x / 7225 % 85) * 7225
      + x % 7225 = x := by
  have hd0 : x / 52200625 % 85 = x / 52200625 :=
    Nat.mod_eq_of_lt ((Nat.div_lt_iff_lt_mul (by norm_num)).2 (by omega))
  have c4 := Nat.div_add_mod (x / 614125) 85
  rw [Nat.div_div_eq_div_mul, show 614125 * 85 = 52200625 by norm_num] at c4
  have c3 := Nat.div_add_mod (x / 7225) 85
  rw [Nat.div_div_eq_div_mul, show 7225 * 85 = 614125 by norm_num] at c3
  conv_rhs => rw [← Nat.div_add_mod x 7225, ← c3, ← c4]
  rw [hd0]; ring

/-- Full base-85 digit sum: the five digits of a word below 85^5 recompose it. -/
theorem b85_psum_full (x : Nat) (hx : x < 4437053125) :
    (x / 52200625 % 85) * 52200625 + (x / 614125 % 85) * 614125 + (x / 7225 % 85) * 7225
      + (x / 85 % 85) * 85 + x % 85 = x := by
  have hd0 : x / 52200625 % 85 = x / 52200625 :=
    Nat.mod_eq_of_lt ((Nat.div_lt_iff_lt_mul (by norm_num)).2 (by omega))
  have c4 := Nat.div_add_mod (x / 614125) 85
  rw [Nat.div_div_eq_div_mul, show 614125 * 85 = 52200625 by norm_num] at c4
  have c3 := Nat.div_add_mod (x / 7225) 85
  rw [Nat.div_div_eq_div_mul, show 7225 * 85 = 614125 by norm_num] at c3
  have c2 := Nat.div_add_mod (x / 85) 85
  rw [Nat.div_div_eq_div_mul, show 85 * 85 = 7225 by norm_num] at c2
  conv_rhs => rw [← Nat.div_add_mod x 85, ← c2, ← c3, ← c4]
  rw [hd0]; ring

/-- Big-endian byte extraction from a 4-byte word. -/
theorem word_bytes (b0 b1 b2 b3 : Nat) (hb0 : b0 < 256) (hb1 : b1 < 256) (hb2 : b2 < 256)
    (hb3 : b3 < 256) :
    (((b0 * 256 + b1) * 256 + b2) * 256 + b3) / 16777216 % 256 = b0 ∧
    (((b0 * 256 + b1) * 256 + b2) * 256 + b3) / 65536 % 256 = b1 ∧
    (((b0 * 256 + b1) * 256 + b2) * 256 + b3) / 256 % 256 = b2 ∧
    (((b0 * 256 + b1) * 256 + b2) * 256 + b3) % 256 = b3 := by
  have h0 : ((b0 * 256 + b1) * 256 + b2) * 256 + b3
      = (b3 + b2 * 256 + b1 * 65536) + b0 * 16777216 := by ring
  have h1 : ((b0 * 256 + b1) * 256 + b2) * 256 + b3
      = (b3 + b2 * 256) + (b1 + b0 * 256) * 65536 := by ring
  have h2 : ((b0 * 256 + b1) * 256 + b2) * 256 + b3
      = b3 + (b2 + (b0 * 256 + b1) * 256) * 256 := by ring
  refine ⟨?_, ?_, ?_, ?_⟩
  · rw [h0, div_extract _ _ _ (by norm_num) (by omega), Nat.mod_eq_of_lt hb0]
  · rw [h1, div_extract _ _ _ (by norm_num) (by omega), Nat.add_mul_mod_self_right,
      Nat.mod_eq_of_lt hb1]
  · rw [h2, div_extract _ _ _ (by norm_num) (by omega), Nat.add_mul_mod_self_right,
      Nat.mod_eq_of_lt hb2]
  · rw [h2, Nat.add_mul_mod_self_right, Nat.mod_eq_of_lt hb3]

/-- Decoded word of a 1-byte group padded with three `~` digits: the first byte
survives and the word stays within 32 bits. -/
theorem pad3_byte (D0 D1 m b0 : Nat) (h : D0 * 52200625 + D1 * 614125 + m = b0 * 16777216)
    (hm : m < 614125) (hb0 : b0 < 256) :
    ((((D0 * 85 + D1) * 85 + 84) * 85 + 84) * 85 + 84) / 16777216 % 256 = b0 ∧
    (((D0 * 85 + D1) * 85 + 84) * 85 + 84) * 85 + 84 < 4294967296 := by
  have hW : (((D0 * 85 + D1) * 85 + 84) * 85 + 84) * 85 + 84
      = (614124 - m) + b0 * 16777216 := by omega
  constructor
  · rw [hW, div_extract _ _ _ (by norm_num) (by omega), Nat.mod_eq_of_lt hb0]
  · omega

/-- Decoded word of a 2-byte group padded with two `~` digits: both bytes
survive and the word stays within 32 bits. -/
theorem pad2_byte (D0 D1 D2 m b0 b1 : Nat)
    (h : D0 * 52200625 + D1 * 614125 + D2 * 7225 + m = (b0 * 256 + b1) * 65536)
    (hm : m < 7225) (hb0 : b0 < 256) (hb1 : b1 < 256) :
    ((((D0 * 85 + D1) * 85 + D2) * 85 + 84) * 85 + 84) / 16777216 % 256 = b0 ∧
    ((((D0 * 85 + D1) * 85 + D2) * 85 + 84) * 85 + 84) / 65536 % 256 = b1 ∧
    (((D0 * 85 + D1) * 85 + D2) * 85 + 84) * 85 + 84 < 4294967296 := by
  have hW0 : (((D0 * 85 + D1) * 85 + D2) * 85 + 84) * 85 + 84
      = (7224 - m + b1 * 65536) + b0 * 16777216 := by omega
  have hW1 : (((D0 * 85 + D1) * 85 + D2) * 85 + 84) * 85 + 84
      = (7224 - m) + (b1 + b0 * 256) * 65536 := by omega
  refine ⟨?_, ?_, ?_⟩
  · rw [hW0, div_extract _ _ _ (by norm_num) (by omega), Nat.mod_eq_of_lt hb0]
  · rw [hW1, div_extract _ _ _ (by norm_num) (by omega), Nat.add_mul_mod_self_right,
      Nat.mod_eq_of_lt hb1]
  · omega

/-- Decoded word of a 3-byte group padded with one `~` digit: all three bytes
survive and the word stays within 32 bits. -/
theorem pad1_byte (D0 D1 D2 D3 m b0 b1 b2 : Nat)
    (h : D0 * 52200625 + D1 * 614125 + D2 * 7225 + D3 * 85 + m
      = ((b0 * 256 + b1) * 256 + b2) * 256)
    (hm : m < 85) (hb0 : b0 < 256) (hb1 : b1 < 256) (hb2 : b2 < 256) :
    ((((D0 * 85 + D1) * 85 + D2) * 85 + D3) * 85 + 84) / 16777216 % 256 = b0 ∧
    ((((D0 * 85 + D1) * 85 + D2) * 85 + D3) * 85 + 84) / 65536 % 256 = b1 ∧
    ((((D0 * 85 + D1) * 85 + D2) * 85 + D3) * 85 + 84) / 256 % 256 = b2 ∧
    (((D0 * 85 + D1) * 85 + D2) * 85 + D3) * 85 + 84 < 4294967296 := by
  have hW0 : (((D0 * 85 + D1) * 85 + D2) * 85 + D3) * 85 + 84
      = (84 - m + b2 * 256 + b1 * 65536) + b0 * 16777216 := by omega
  have hW1 : (((D0 * 85 + D1) * 85 + D2) * 85 + D3) * 85 + 84
      = (84 - m + b2 * 256) + (b1 + b0 * 256) * 65536 := by omega
  have hW2 : (((D0 * 85 + D1) * 85 + D2) * 85 + D3) * 85 + 84
      = (84 - m) + (b2 + (b0 * 256 + b1) * 256) * 256 := by omega
  refine ⟨?_, ?_, ?_, ?_⟩
  · rw [hW0, div_extract _ _ _ (by norm_num) (by omega), Nat.mod_eq_of_lt hb0]
  · rw [hW1, div_extract _ _ _ (by norm_num) (by omega), Nat.add_mul_mod_self_right,
      Nat.mod_eq_of_lt hb1]
  · rw [hW2, div_extract _ _ _ (by norm_num) (by omega), Nat.add_mul_mod_self_right,
      Nat.mod_eq_of_lt hb2]
  · omega

/-- Decoding inverts encoding on every byte string: the padded/truncated final
group reconstructs exactly the original bytes. -/
theorem b85_roundtrip : ∀ data : List Nat, (∀ b ∈ data, b < 256) →
    b85decode (b85encode data) = some data
  | [], _ => rfl
  | [b0], h => by
    have hb0 : b0 < 256 := h b0 (by simp)
    have hw : word32 b0 0 0 0 = b0 * 16777216 := by simp only [word32]; ring
    have henc : b85encode [b0] =
        [b85chr (word32 b0 0 0 0 / 52200625 % 85), b85chr (word32 b0 0 0 0 / 614125 % 85)] := rfl
    have hdec : ∀ c0 c1 : Nat, b85decode [c0, c1] =
        (match dec5 c0 c1 126 126 126 with
         | some bs => some (bs.take 1)
         | none => none) := fun _ _ => rfl
    rw [henc, hdec, hw, ← b85chr_84]
    have hpsum := b85_psum1 (b0 * 16777216) (by omega)
    have hpad := pad3_byte _ _ _ _ hpsum (Nat.mod_lt _ (by norm_num)) hb0
    rw [dec5_vals _ _ 84 84 84 (Nat.mod_lt _ (by norm_num)) (Nat.mod_lt _ (by norm_num))
      (by norm_num) (by norm_num) (by norm_num) hpad.2]
    simp [hpad.1]
  | [b0, b1], h => by
    have hb0 : b0 < 256 := h b0 (by simp)
    have hb1 : b1 < 256 := h b1 (by simp)
    have hw : word32 b0 b1 0 0 = (b0 * 256 + b1) * 65536 := by simp only [word32]; ring
    have henc : b85encode [b0, b1] =
        [b85chr (word32 b0 b1 0 0 / 52200625 % 85), b85chr (word32 b0 b1 0 0 / 614125 % 85),
         b85chr (word32 b0 b1 0 0 / 7225 % 85)] := rfl
    have hdec : ∀ c0 c1 c2 : Nat, b85decode [c0, c1, c2] =
        (match dec5 c0 c1 c2 126 126 with
         | some bs => some (bs.take 2)
         | none => none) := fun _ _ _ => rfl
    rw [henc, hdec, hw, ← b85chr_84]
    have hpsum := b85_psum2 ((b0 * 256 + b1) * 65536) (by omega)
    have hpad := pad2_byte _ _ _ _ _ _ hpsum (Nat.mod_lt _ (by norm_num)) hb0 hb1
    rw [dec5_vals _ _ _ 84 84 (Nat.mod_lt _ (by norm_num)) (Nat.mod_lt _ (by norm_num))
      (Nat.mod_lt _ (by norm_num)) (by norm_num) (by norm_num) hpad.2.2]
    simp [hpad.1, hpad.2.1]
  | [b0, b1, b2], h => by
    have hb0 : b0 < 256 := h b0 (by simp)
    have hb1 : b1 < 256 := h b1 (by simp)
    have hb2 : b2 < 256 := h b2 (by simp)
    have hw : word32 b0 b1 b2 0 = ((b0 * 256 + b1) * 256 + b2) * 256 := by
      simp only [word32]; ring
    have henc : b85encode [b0, b1, b2] =
        [b85chr (word32 b0 b1 b2 0 / 52200625 % 85), b85chr (word32 b0 b1 b2 0 / 614125 % 85),
         b85chr (word32 b0 b1 b2 0 / 7225 % 85), b85chr (word32 b0 b1 b2 0 / 85 % 85)] := rfl
    have hdec : ∀ c0 c1 c2 c3 : Nat, b85decode [c0, c1, c2, c3] =
        (match dec5 c0 c1 c2 c3 126 with
         | some bs => some (bs.take 3)
         | none => none) := fun _ _ _ _ => rfl
    rw [henc, hdec, hw, ← b85chr_84]
    have hpsum := b85_psum_full (((b0 * 256 + b1) * 256 + b2) * 256) (by omega)
    have hpad := pad1_byte _ _ _ _ _ _ _ _ hpsum (Nat.mod_lt _ (by norm_num)) hb0 hb1 hb2
    rw [dec5_vals _ _ _ _ 84 (Nat.mod_lt _ (by norm_num)) (Nat.mod_lt _ (by norm_num))
      (Nat.mod_lt _ (by norm_num)) (Nat.mod_lt _ (by norm_num)) (by norm_num) hpad.2.2.2]
    simp [hpad.1, hpad.2.1, hpad.2.2.1]
  | b0 :: b1 :: b2 :: b3 :: rest, h => by
    have hb0 : b0 < 256 := h b0 (by simp)
    have hb1 : b1 < 256 := h b1 (by simp)
    have hb2 : b2 < 256 := h b2 (by simp)
    have hb3 : b3 < 256 := h b3 (by simp)
    have ih := b85_roundtrip rest (fun b hb => h b (by simp [hb]))
    have hw : word32 b0 b1 b2 b3 = ((b0 * 256 + b1) * 256 + b2) * 256 + b3 := rfl
    have henc : b85encode (b0 :: b1 :: b2 :: b3 :: rest) =
        b85chr (word32 b0 b1 b2 b3 / 52200625 % 85) :: b85chr (word32 b0 b1 b2 b3 / 614125 % 85)
          :: b85chr (word32 b0 b1 b2 b3 / 7225 % 85) :: b85chr (word32 b0 b1 b2 b3 / 85 % 85)
          :: b85chr (word32 b0 b1 b2 b3 % 85) :: b85encode rest := rfl
    have hdec : ∀ (c0 c1 c2 c3 c4 : Nat) (cs : List Nat),
        b85decode (c0 :: c1 :: c2 :: c3 :: c4 :: cs) =
        (match dec5 c0 c1 c2 c3 c4, b85decode cs with
         | some bs, some rs => some (bs ++ rs)
         | _, _ => none) := fun _ _ _ _ _ _ => rfl
    rw [henc, hdec, hw]
    generalize hxg : ((b0 * 256 + b1) * 256 + b2) * 256 + b3 = x
    have hpsum := b85_psum_full x (by omega)
    have hwb := word_bytes b0 b1 b2 b3 hb0 hb1 hb2 hb3
    rw [hxg] at hwb
    have hWx : (((x / 52200625 % 85 * 85 + x / 614125 % 85) * 85 + x / 7225 % 85) * 85
        + x / 85 % 85) * 85 + x % 85 = x := by
      refine Eq.trans ?_ hpsum
      ring
    rw [dec5_vals _ _ _ _ _ (Nat.mod_lt _ (by norm_num)) (Nat.mod_lt _ (by norm_num))
      (Nat.mod_lt _ (by norm_num)) (Nat.mod_lt _ (by norm_num)) (Nat.mod_lt _ (by norm_num))
      (by rw [hWx]; omega), ih, hWx]
    simp [hwb.1, hwb.2.1, hwb.2.2.1, hwb.2.2.2]

/-! ## Watcher lemmas -/

/-- Unfolding: a terminal poll stops the loop at once. -/
theorem waitEvents_succ_term (poll : Nat → JobStatus) (i fuel : Nat) (r : Except Err Unit)
    (h : waitCheck (poll i) = some r) :
    waitEvents poll i (fuel + 1) = ([Event.getJob], some r) := by
  simp [waitEvents, h]

/-- Unfolding: a non-terminal poll sleeps 5 and loops. -/
theorem waitEvents_succ_run (poll : Nat → JobStatus) (i fuel : Nat)
    (h : waitCheck (poll i) = none) :
    waitEvents poll i (fuel + 1) =
      (Event.getJob :: Event.sleep 5 :: (waitEvents poll (i + 1) fuel).1,
        (waitEvents poll (i + 1) fuel).2) := by
  simp [waitEvents, h]

/-- Classification: `waitCheck` yields a result exactly on terminal states. -/
theorem waitCheck_isSome (s : JobStatus) : (waitCheck s).isSome = isTerminal s.state := by
  cases hs : s.state <;> simp [waitCheck, isTerminal, hs]

/-- Classification: the only non-terminal modelled state is `running`. -/
theorem not_terminal_running (s : JobState) (h : isTerminal s = false) :
    s = JobState.running := by
  cases s <;> simp_all [isTerminal]

/-- Skipping a run of non-terminal polls does not change the final outcome. -/
theorem wait_skip (poll : Nat → JobStatus) :
    ∀ (n i fuel : Nat), (∀ j, j < n → waitCheck (poll (i + j)) = none) →
      (waitEvents poll i (n + fuel)).2 = (waitEvents poll (i + n) fuel).2
  | 0, i, fuel, _ => by simp
  | n + 1, i, fuel, hrun => by
    have h0 : waitCheck (poll i) = none := by
      have := hrun 0 (Nat.succ_pos n)
      simpa using this
    have hshift : ∀ j, j < n → waitCheck (poll (i + 1 + j)) = none := by
      intro j hj
      have := hrun (j + 1) (by omega)
      rwa [show i + (j + 1) = i + 1 + j by omega] at this
    rw [show n + 1 + fuel = (n + fuel) + 1 by omega, waitEvents_succ_run poll i (n + fuel) h0]
    have ih := wait_skip poll n (i + 1) fuel hshift
    rw [show i + 1 + n = i + (n + 1) by omega] at ih
    simpa using ih

/-- Every sleep recorded by the watcher lasts exactly 5 time-units. -/
theorem waitEvents_sleep5 (poll : Nat → JobStatus) :
    ∀ (fuel i d : Nat), Event.sleep d ∈ (waitEvents poll i fuel).1 → d = 5
  | 0, i, d, hmem => by simp [waitEvents] at hmem
  | fuel + 1, i, d, hmem => by
    cases hc : waitCheck (poll i) with
    | some r =>
      rw [waitEvents_succ_term poll i fuel r hc] at hmem
      simp at hmem
    | none =>
      rw [waitEvents_succ_run poll i fuel hc] at hmem
      simp at hmem
      rcases hmem with h5 | htail
      · exact h5
      · exact waitEvents_sleep5 poll fuel (i + 1) d htail

/-- If the watcher produced a result, some polled status was terminal. -/
theorem waitEvents_isSome_terminal (poll : Nat → JobStatus) :
    ∀ (fuel i : Nat), ((waitEvents poll i fuel).2).isSome →
      ∃ n, isTerminal (poll n).state = true
  | 0, i, hs => by simp [waitEvents] at hs
  | fuel + 1, i, hs => by
    cases hc : waitCheck (poll i) with
    | some r =>
      refine ⟨i, ?_⟩
      rw [← waitCheck_isSome, hc]
      rfl
    | none =>
      rw [waitEvents_succ_run poll i fuel hc] at hs
      exact waitEvents_isSome_terminal poll fuel (i + 1) hs

/-- While no status is terminal, the watcher keeps polling: no result at any
fuel, with one `get_job` call per loop iteration. -/
theorem waitEvents_run_forever (poll : Nat → JobStatus)
    (hall : ∀ n, isTerminal (poll n).state = false) :
    ∀ (fuel i : Nat), (waitEvents poll i fuel).2 = none ∧
      (waitEvents poll i fuel).1.count Event.getJob = fuel
  | 0, i => by simp [waitEvents]
  | fuel + 1, i => by
    have hc : waitCheck (poll i) = none := by
      have := waitCheck_isSome (poll i)
      rw [hall i] at this
      exact Option.not_isSome_iff_eq_none.1 (by simp [this])
    rw [waitEvents_succ_run poll i fuel hc]
    have ih := waitEvents_run_forever poll hall fuel (i + 1)
    refine ⟨ih.1, ?_⟩
    simp [List.count_cons, ih.2]

/-! ## Trace lemmas for `runJob` -/

/-- The watcher's trace holds only `get_job` calls and sleeps. -/
theorem waitEvents_events (poll : Nat → JobStatus) :
    ∀ (fuel i : Nat), ∀ e ∈ (waitEvents poll i fuel).1,
      e = Event.getJob ∨ e = Event.sleep 5
  | 0, i, e, hmem => by simp [waitEvents] at hmem
  | fuel + 1, i, e, hmem => by
    cases hc : waitCheck (poll i) with
    | some r =>
      rw [waitEvents_succ_term poll i fuel r hc] at hmem
      simp at hmem
      exact Or.inl hmem
    | none =>
      rw [waitEvents_succ_run poll i fuel hc] at hmem
      simp at hmem
      rcases hmem with h | h | h
      · exact Or.inl h
      · exact Or.inr h
      · exact waitEvents_events poll fuel (i + 1) e h

/-- The watcher never touches the cluster: its trace counts no teardown and no
creation events. -/
theorem waitEvents_count_cluster (poll : Nat → JobStatus) (fuel i : Nat) :
    (waitEvents poll i fuel).1.count Event.deleteCluster = 0 ∧
    (waitEvents poll i fuel).1.count Event.createCluster = 0 := by
  constructor <;>
    refine List.count_eq_zero.2 (fun hmem => ?_) <;>
    rcases waitEvents_events poll fuel i _ hmem with h | h <;> simp at h

/-- The log retriever never touches the cluster either. -/
theorem printLog_count_cluster (o : Oracle) :
    (printJobOutputLog o).1.count Event.deleteCluster = 0 ∧
    (printJobOutputLog o).1.count Event.createCluster = 0 := by
  cases hgf : o.getJobFinalR <;> cases hdl : o.downloadLogR <;>
    simp [printJobOutputLog, hgf, hdl]

/-- C1: in every terminating run, `_delete_cluster` is invoked exactly once
whenever cluster creation was attempted (`createCluster` occurs in the trace) —
on normal completion and on every failure of submission, polling or log
retrieval alike — and never when the run aborts before the cluster scope. -/
theorem run_cluster_teardown_once (o : Oracle) (fuel : Nat) (tr : List Event)
    (r : Except Err Unit) (h : runJob o fuel = (tr, some r)) :
    tr.count Event.deleteCluster = if Event.createCluster ∈ tr then 1 else 0 := by
  cases hgb : o.getBucketR with
  | error e =>
    simp only [runJob, hgb, Prod.mk.injEq] at h
    obtain ⟨rfl, -⟩ := h
    decide
  | ok u0 =>
  cases hbe : o.buildEggR with
  | error e =>
    simp only [runJob, hgb, hbe, Prod.mk.injEq] at h
    obtain ⟨rfl, -⟩ := h
    decide
  | ok u1 =>
  cases hue : o.uploadEggR with
  | error e =>
    simp only [runJob, hgb, hbe, hue, Prod.mk.injEq] at h
    obtain ⟨rfl, -⟩ := h
    decide
  | ok u2 =>
  cases hpk : o.pickleR with
  | error e =>
    simp only [runJob, hgb, hbe, hue, hpk, Prod.mk.injEq] at h
    obtain ⟨rfl, -⟩ := h
    decide
  | ok u3 =>
  cases hud : o.uploadDriverR with
  | error e =>
    simp only [runJob, hgb, hbe, hue, hpk, hud, Prod.mk.injEq] at h
    obtain ⟨rfl, -⟩ := h
    decide
  | ok u4 =>
  cases hcc : o.createClusterR with
  | error e =>
    simp only [runJob, hgb, hbe, hue, hpk, hud, withTempCluster, hcc, Prod.mk.injEq] at h
    obtain ⟨rfl, -⟩ := h
    decide
  | ok u5 =>
  cases hsj : o.submitJobR with
  | error e =>
    simp only [runJob, hgb, hbe, hue, hpk, hud, withTempCluster, clusterBody, hcc, hsj,
      Prod.mk.injEq] at h
    obtain ⟨rfl, -⟩ := h
    decide
  | ok u6 =>
  cases hw : (waitEvents o.poll 0 fuel).2 with
  | none =>
    simp only [runJob, hgb, hbe, hue, hpk, hud, withTempCluster, clusterBody, hcc, hsj, hw,
      Prod.mk.injEq] at h
    exact absurd h.2 (by simp)
  | some r' =>
    simp only [runJob, hgb, hbe, hue, hpk, hud, withTempCluster, clusterBody, hcc, hsj, hw,
      Prod.mk.injEq] at h
    obtain ⟨rfl, -⟩ := h
    have hwc := waitEvents_count_cluster o.poll fuel 0
    have hlc := printLog_count_cluster o
    rw [if_pos (by simp)]
    simp [List.count_append, List.count_cons, hwc.1, hlc.1]

/-- Witness for C1: a complete all-success run creates and deletes the cluster
exactly once. -/
theorem run_cluster_teardown_once_witness :
    runJob oAllOk 1 = ([Event.getBucket, Event.buildEgg, Event.uploadEgg, Event.pickleDriver,
      Event.uploadDriver, Event.createCluster, Event.submitJob, Event.getJob, Event.getJob,
      Event.downloadLog, Event.deleteCluster], some (Except.ok ())) ∧
    ([Event.getBucket, Event.buildEgg, Event.uploadEgg, Event.pickleDriver,
      Event.uploadDriver, Event.createCluster, Event.submitJob, Event.getJob, Event.getJob,
      Event.downloadLog, Event.deleteCluster] : List Event).count Event.deleteCluster
      = if Event.createCluster ∈ ([Event.getBucket, Event.buildEgg, Event.uploadEgg,
          Event.pickleDriver, Event.uploadDriver, Event.createCluster, Event.submitJob,
          Event.getJob, Event.getJob, Event.downloadLog, Event.deleteCluster] : List Event)
        then 1 else 0 :=
  ⟨rfl, run_cluster_teardown_once oAllOk 1 _ (Except.ok ()) rfl⟩

/-- Counterexample for C2 as stated: with submission failing with
`"submit failed"` and teardown failing with `"teardown failed"`, the error that
propagates from the run is the teardown failure, not the original error. -/
theorem run_teardown_masks_error_cex :
    (runJob oC2 1).2 = some (Except.error ⟨"teardown failed"⟩) ∧
    oC2.submitJobR = Except.error ⟨"submit failed"⟩ ∧
    Err.mk "teardown failed" ≠ Err.mk "submit failed" :=
  ⟨rfl, rfl, by decide⟩

/-- C2 amended: when a step inside the cluster scope raises and
`_delete_cluster` also raises, the teardown failure (not the original error)
propagates to the caller — Python `finally` semantics replace the in-flight
exception, and the code does not catch or log the teardown failure. -/
theorem run_teardown_failure_propagates (o : Oracle) (fuel : Nat) (e1 e2 : Err)
    (hgb : o.getBucketR = Except.ok ()) (hbe : o.buildEggR = Except.ok ())
    (hue : o.uploadEggR = Except.ok ()) (hpk : o.pickleR = Except.ok ())
    (hud : o.uploadDriverR = Except.ok ()) (hcc : o.createClusterR = Except.ok ())
    (hbody : (clusterBody o fuel).2 = some (Except.error e1))
    (hdc : o.deleteClusterR = Except.error e2) :
    (runJob o fuel).2 = some (Except.error e2) := by
  simp [runJob, hgb, hbe, hue, hpk, hud, withTempCluster, hcc, hbody, hdc]

/-- Witness for the amended C2 at the concrete oracle `oC2`. -/
theorem run_teardown_failure_propagates_witness :
    (runJob oC2 1).2 = some (Except.error ⟨"teardown failed"⟩) :=
  run_teardown_failure_propagates oC2 1 ⟨"submit failed"⟩ ⟨"teardown failed"⟩
    rfl rfl rfl rfl rfl rfl rfl rfl

/-- Counterexample for C7 as stated: the job reaches `DONE`, yet a failing log
download makes the whole run fail with the log-retrieval error instead of
completing normally. -/
theorem run_log_failure_fatal_cex :
    (oC7.poll 0).state = JobState.done ∧
    (runJob oC7 1).2 = some (Except.error ⟨"log retrieval failed"⟩) ∧
    some (Except.error (Err.mk "log retrieval failed")) ≠ some (Except.ok ()) :=
  ⟨rfl, rfl, by simp⟩

/-- C7 amended: a failure of `_print_job_output_log` is fatal — it propagates
to the caller (teardown permitting), replacing the job's own outcome whether
the job succeeded or failed. -/
theorem run_log_failure_propagates (o : Oracle) (fuel : Nat) (r : Except Err Unit) (e : Err)
    (hgb : o.getBucketR = Except.ok ()) (hbe : o.buildEggR = Except.ok ())
    (hue : o.uploadEggR = Except.ok ()) (hpk : o.pickleR = Except.ok ())
    (hud : o.uploadDriverR = Except.ok ()) (hcc : o.createClusterR = Except.ok ())
    (hsj : o.submitJobR = Except.ok ())
    (hw : (waitEvents o.poll 0 fuel).2 = some r)
    (hlog : (printJobOutputLog o).2 = Except.error e)
    (hdc : o.deleteClusterR = Except.ok ()) :
    (runJob o fuel).2 = some (Except.error e) := by
  simp [runJob, hgb, hbe, hue, hpk, hud, withTempCluster, clusterBody, hcc, hsj, hw, hlog, hdc]

/-- Witness for the amended C7 at the concrete oracle `oC7`. -/
theorem run_log_failure_propagates_witness :
    (runJob oC7 1).2 = some (Except.error ⟨"log retrieval failed"⟩) :=
  run_log_failure_propagates oC7 1 (Except.ok ()) ⟨"log retrieval failed"⟩
    rfl rfl rfl rfl rfl rfl rfl rfl rfl rfl

/-- Counterexample for C8 as stated: when pickling the work unit fails, the
project egg has already been uploaded to blob storage — a remote resource was
touched before the serialization failure propagated. -/
theorem run_pickle_after_upload_cex :
    runJob oC8 1 = ([Event.getBucket, Event.buildEgg, Event.uploadEgg, Event.pickleDriver],
      some (Except.error ⟨"pickling failed"⟩)) ∧
    Event.uploadEgg ∈ (runJob oC8 1).1 :=
  ⟨rfl, by decide⟩

/-- C8 amended: a serialization failure aborts the run before cluster creation,
job submission and the driver upload, but after the project egg upload (one
blob upload has already occurred). -/
theorem run_pickle_failure_aborts (o : Oracle) (fuel : Nat) (e : Err)
    (hgb : o.getBucketR = Except.ok ()) (hbe : o.buildEggR = Except.ok ())
    (hue : o.uploadEggR = Except.ok ()) (hpk : o.pickleR = Except.error e) :
    runJob o fuel = ([Event.getBucket, Event.buildEgg, Event.uploadEgg, Event.pickleDriver],
      some (Except.error e)) ∧
    Event.createCluster ∉ (runJob o fuel).1 ∧
    Event.submitJob ∉ (runJob o fuel).1 ∧
    Event.uploadDriver ∉ (runJob o fuel).1 ∧
    Event.uploadEgg ∈ (runJob o fuel).1 := by
  have h : runJob o fuel = ([Event.getBucket, Event.buildEgg, Event.uploadEgg,
      Event.pickleDriver], some (Except.error e)) := by
    simp [runJob, hgb, hbe, hue, hpk]
  refine ⟨h, ?_, ?_, ?_, ?_⟩ <;> rw [h] <;> simp

/-- Witness for the amended C8 at the concrete oracle `oC8`. -/
theorem run_pickle_failure_aborts_witness :
    runJob oC8 1 = ([Event.getBucket, Event.buildEgg, Event.uploadEgg, Event.pickleDriver],
      some (Except.error ⟨"pickling failed"⟩)) ∧
    Event.createCluster ∉ (runJob oC8 1).1 ∧
    Event.submitJob ∉ (runJob oC8 1).1 ∧
    Event.uploadDriver ∉ (runJob oC8 1).1 ∧
    Event.uploadEgg ∈ (runJob oC8 1).1 :=
  run_pickle_failure_aborts oC8 1 ⟨"pickling failed"⟩ rfl rfl rfl rfl

/-- C3: when the first terminal status is observed at poll `n`, the watcher
returns normally exactly when that status is `DONE`; on `ERROR` it raises an
error whose message contains the remote status detail; on `CANCELLED` it raises
the fixed message `"Job was CANCELLED"`. -/
theorem wait_first_terminal_spec (poll : Nat → JobStatus) (n fuel : Nat) (hfuel : n < fuel)
    (hrun : ∀ i, i < n → (poll i).state = JobState.running)
    (hterm : (poll n).state ≠ JobState.running) :
    ((waitEvents poll 0 fuel).2 = some (Except.ok ()) ↔ (poll n).state = JobState.done) ∧
    ((poll n).state = JobState.error →
      ∃ e : Err, (waitEvents poll 0 fuel).2 = some (Except.error e) ∧
        (poll n).details.data <:+: e.msg.data) ∧
    ((poll n).state = JobState.cancelled →
      (waitEvents poll 0 fuel).2 = some (Except.error ⟨"Job was CANCELLED"⟩)) := by
  have hrun' : ∀ j, j < n → waitCheck (poll (0 + j)) = none := by
    intro j hj
    have hj' := hrun j hj
    simp [waitCheck, Nat.zero_add, hj']
  have hsk := wait_skip poll n 0 (fuel - n) hrun'
  rw [show n + (fuel - n) = fuel by omega, Nat.zero_add] at hsk
  obtain ⟨m, hm⟩ : ∃ m, fuel - n = m + 1 := ⟨fuel - n - 1, by omega⟩
  rw [hm] at hsk
  cases hst : (poll n).state with
  | running => exact absurd hst hterm
  | done =>
    have hc : waitCheck (poll n) = some (Except.ok ()) := by simp [waitCheck, hst]
    rw [waitEvents_succ_term poll n m _ hc] at hsk
    refine ⟨by simp [hsk, hst], ?_, ?_⟩ <;> intro hx <;> exact absurd hx (by decide)
  | error =>
    have hc : waitCheck (poll n) = some (Except.error ⟨(poll n).details⟩) := by
      simp [waitCheck, hst]
    rw [waitEvents_succ_term poll n m _ hc] at hsk
    refine ⟨by simp [hsk, hst], fun _ => ⟨⟨(poll n).details⟩, by simp [hsk], List.infix_rfl⟩, ?_⟩
    intro hx
    exact absurd hx (by decide)
  | cancelled =>
    have hc : waitCheck (poll n) = some (Except.error ⟨"Job was CANCELLED"⟩) := by
      simp [waitCheck, hst]
    rw [waitEvents_succ_term poll n m _ hc] at hsk
    refine ⟨by simp [hsk, hst], ?_, fun _ => by simp [hsk]⟩
    intro hx
    exact absurd hx (by decide)

/-- Witness for C3 at the stream whose first status is `ERROR`/`"boom"`. -/
theorem wait_first_terminal_witness :
    ((((waitEvents pollBoom 0 1).2 = some (Except.ok ()))
        ↔ (pollBoom 0).state = JobState.done) ∧
      ((pollBoom 0).state = JobState.error →
        ∃ e : Err, (waitEvents pollBoom 0 1).2 = some (Except.error e) ∧
          (pollBoom 0).details.data <:+: e.msg.data) ∧
      ((pollBoom 0).state = JobState.cancelled →
        (waitEvents pollBoom 0 1).2 = some (Except.error ⟨"Job was CANCELLED"⟩))) ∧
    (waitEvents pollBoom 0 1).2 = some (Except.error ⟨"boom"⟩) :=
  ⟨wait_first_terminal_spec pollBoom 0 1 (by omega) (fun i hi => absurd hi (by omega))
    (by decide), rfl⟩

/-- C4: the watcher sleeps a constant 5 time-units between polls (no backoff),
has no attempt or duration cap — it yields a result for some fuel exactly when
some polled status is terminal — and on a never-terminal stream it keeps
polling forever: at every fuel it has produced no result and has made exactly
`fuel` `get_job` calls. -/
theorem wait_unbounded_constant_interval (poll : Nat → JobStatus) :
    (∀ fuel i d, Event.sleep d ∈ (waitEvents poll i fuel).1 → d = 5) ∧
    ((∃ fuel, ((waitEvents poll 0 fuel).2).isSome) ↔
      ∃ n, isTerminal (poll n).state = true) ∧
    ((∀ n, isTerminal (poll n).state = false) →
      ∀ fuel, (waitEvents poll 0 fuel).2 = none ∧
        (waitEvents poll 0 fuel).1.count Event.getJob = fuel) := by
  refine ⟨fun fuel i d hmem => waitEvents_sleep5 poll fuel i d hmem, ⟨?_, ?_⟩,
    fun hall fuel => waitEvents_run_forever poll hall fuel 0⟩
  · rintro ⟨fuel, hs⟩
    exact waitEvents_isSome_terminal poll fuel 0 hs
  · rintro ⟨n, hn⟩
    have hex : ∃ k, isTerminal (poll k).state = true := ⟨n, hn⟩
    have hNterm := Nat.find_spec hex
    have hNmin : ∀ j, j < Nat.find hex → isTerminal (poll j).state = false := by
      intro j hj
      have := Nat.find_min hex hj
      simpa using this
    refine ⟨Nat.find hex + 1, ?_⟩
    have hrun : ∀ j, j < Nat.find hex → waitCheck (poll (0 + j)) = none := by
      intro j hj
      have hrj := not_terminal_running _ (hNmin j hj)
      simp [waitCheck, Nat.zero_add, hrj]
    have hsk := wait_skip poll (Nat.find hex) 0 1 hrun
    rw [Nat.zero_add] at hsk
    have hcs : (waitCheck (poll (Nat.find hex))).isSome := by
      rw [waitCheck_isSome]
      exact hNterm
    obtain ⟨r, hr⟩ := Option.isSome_iff_exists.1 hcs
    have h1 : waitEvents poll (Nat.find hex) 1 = ([Event.getJob], some r) := by
      have h2 := waitEvents_succ_term poll (Nat.find hex) 0 r hr
      simpa using h2
    rw [hsk, h1]
    rfl

/-- Witness for C4: a never-terminal stream polls forever (no result, three
polls at fuel 3), while a `DONE` stream terminates. -/
theorem wait_unbounded_constant_interval_witness :
    ((waitEvents pollRunning 0 3).2 = none ∧
      (waitEvents pollRunning 0 3).1.count Event.getJob = 3) ∧
    (∃ fuel, ((waitEvents pollDone 0 fuel).2).isSome) :=
  ⟨(wait_unbounded_constant_interval pollRunning).2.2 (fun _ => rfl) 3,
   (wait_unbounded_constant_interval pollDone).2.1.2 ⟨0, rfl⟩⟩

/-- C5: generating the bootstrap payload and then decoding and invoking it is
the same as applying the env-var overrides and calling the original callable
with its original arguments (given the serialiser contract
`deser (ser w) = some w` for the work unit at hand); in particular the base-85
text embedded in the script decodes byte-for-byte to the serialised payload. -/
theorem driver_script_roundtrip {C V : Type} (ser : PySparkDriverWrapper C V → List Nat)
    (deser : List Nat → Option (PySparkDriverWrapper C V)) (w : PySparkDriverWrapper C V)
    (osenv : List (String × String))
    (hbytes : ∀ b ∈ ser w, b < 256) (hpickle : deser (ser w) = some w) :
    b85decode (b85encode (ser w)) = some (ser w) ∧
    runBootstrap deser (driverScriptData ser w) osenv =
      some (osEnvironUpdate osenv w.envs, ⟨w.callable, w.args, w.kwargs⟩) := by
  have hrt := b85_roundtrip (ser w) hbytes
  refine ⟨hrt, ?_⟩
  simp [runBootstrap, driverScriptData, hrt, hpickle, wrapperCall]

/-- Witness for C5 at a toy work unit and serialiser. -/
theorem driver_script_roundtrip_witness :
    b85decode (b85encode (serC5 wC5)) = some (serC5 wC5) ∧
    runBootstrap deserC5 (driverScriptData serC5 wC5) [] =
      some (osEnvironUpdate [] wC5.envs, ⟨wC5.callable, wC5.args, wC5.kwargs⟩) :=
  driver_script_roundtrip serC5 deserC5 wC5 [] (by decide) rfl

/-- Setting a key finds that key with the new value. -/
theorem pyLookup_pyDictSet_same {V : Type} :
    ∀ (d : List (String × V)) (k : String) (v : V),
      pyLookup (pyDictSet d k v) k = some v
  | [], k, v => by simp [pyDictSet, pyLookup]
  | p :: rest, k, v => by
    by_cases hp : p.1 = k
    · simp [pyDictSet, hp, pyLookup]
    · simp [pyDictSet, hp, pyLookup, pyLookup_pyDictSet_same rest k v]

/-- Setting a key leaves every other key's binding unchanged. -/
theorem pyLookup_pyDictSet_other {V : Type} :
    ∀ (d : List (String × V)) (k q : String) (v : V), q ≠ k →
      pyLookup (pyDictSet d k v) q = pyLookup d q
  | [], k, q, v, hq => by
    have hkq : ¬k = q := fun h => hq h.symm
    simp [pyDictSet, pyLookup, hkq]
  | p :: rest, k, q, v, hq => by
    have hkq : ¬k = q := fun h => hq h.symm
    by_cases hp : p.1 = k
    · simp [pyDictSet, hp, pyLookup, hkq]
    · by_cases hpq : p.1 = q
      · simp [pyDictSet, hp, pyLookup, hpq, hq]
      · simp [pyDictSet, hp, pyLookup, hpq, pyLookup_pyDictSet_other rest k q v hq]

/-- C9: the wrapper's keyword arguments are the descriptor's `driver_arguments`
with `'runtime'` bound to the given runtime — silently overwriting any
caller-supplied `'runtime'` entry — while every other key keeps its binding and
the descriptor's own mapping is returned unchanged. -/
theorem prepare_driver_callable_spec {C V : Type} (cb : C) (args : List (String × V))
    (env : String) (runtime : V) :
    ((prepare_driver_callable cb args env runtime).1).kwargs
        = pyDictSet args "runtime" runtime ∧
    pyLookup ((prepare_driver_callable cb args env runtime).1).kwargs "runtime"
        = some runtime ∧
    (∀ k, k ≠ "runtime" →
      pyLookup ((prepare_driver_callable cb args env runtime).1).kwargs k = pyLookup args k) ∧
    (prepare_driver_callable cb args env runtime).2 = args := by
  refine ⟨rfl, ?_, ?_, rfl⟩
  · exact pyLookup_pyDictSet_same args "runtime" runtime
  · intro k hk
    exact pyLookup_pyDictSet_other args "runtime" k runtime hk

/-- Witness for C9: a caller-supplied `'runtime'` entry is overwritten while
other keys survive. -/
theorem prepare_driver_callable_witness :
    pyLookup ((prepare_driver_callable () [("runtime", 0), ("x", 5)] "dev" 9).1).kwargs
        "runtime" = some 9 ∧
    pyLookup ((prepare_driver_callable () [("runtime", 0), ("x", 5)] "dev" 9).1).kwargs "x"
        = pyLookup [("runtime", 0), ("x", 5)] "x" :=
  ⟨(prepare_driver_callable_spec () [("runtime", 0), ("x", 5)] "dev" 9).2.1,
   (prepare_driver_callable_spec () [("runtime", 0), ("x", 5)] "dev" 9).2.2.1 "x" (by decide)⟩

/-- C10: the constructed env tag is never empty (falling back to the current
environment and then to `"none"`), the run id's env segment is the tag itself
(never the empty-string fallback), and the property map always holds
`spark.app.name` (the id) plus both worker- and executor-side env keys. -/
theorem env_tag_invariant (envArg currentEnv : Option String) (jid : String) :
    initEnvField envArg currentEnv ≠ "" ∧
    pyOrStr (initEnvField envArg currentEnv) "none" = initEnvField envArg currentEnv ∧
    pyLookup (prepare_pyspark_properties jid (initEnvField envArg currentEnv))
      "spark.app.name" = some jid ∧
    pyLookup (prepare_pyspark_properties jid (initEnvField envArg currentEnv))
      "spark.workerEnv.bf_env" = some (initEnvField envArg currentEnv) ∧
    pyLookup (prepare_pyspark_properties jid (initEnvField envArg currentEnv))
      "spark.executorEnv.bf_env" = some (initEnvField envArg currentEnv) := by
  have hne : initEnvField envArg currentEnv ≠ "" := by
    rcases envArg with _ | s
    · rcases currentEnv with _ | t
      · simp [initEnvField, pyOrOpt]
      · by_cases ht : t = "" <;> simp [initEnvField, pyOrOpt, ht]
    · by_cases hs : s = ""
      · rcases currentEnv with _ | t
        · simp [initEnvField, pyOrOpt, hs]
        · by_cases ht : t = "" <;> simp [initEnvField, pyOrOpt, hs, ht]
      · simp [initEnvField, pyOrOpt, hs]
  refine ⟨hne, by simp [pyOrStr, hne], ?_, ?_, ?_⟩ <;>
    simp [prepare_pyspark_properties, hne, pyLookup]

/-- Decimal digit characters are in the `\d` class. -/
theorem digitChar_isDigit : ∀ d : Nat, d < 10 → isAsciiDigit (Nat.digitChar d) = true := by
  decide

/-- Every selectable suffix character is a lowercase letter or digit. -/
theorem alpha_isLowerAlnum : ∀ j : Nat, isLowerAlnum (lowercaseAndDigits.getD j 'a') = true := by
  intro j
  by_cases hj : j < 36
  · exact (by decide : ∀ j : Nat, j < 36 → isLowerAlnum (lowercaseAndDigits.getD j 'a') = true)
      j hj
  · rw [List.getD_eq_default]
    · decide
    · have hlen : lowercaseAndDigits.length = 36 := by decide
      omega

/-- Both characters of a two-digit zero-padded field are digits. -/
theorem pad2_digits (n : Nat) : ∀ c ∈ (pad2 n).data, isAsciiDigit c = true := by
  intro c hc
  simp [pad2] at hc
  rcases hc with rfl | rfl <;> exact digitChar_isDigit _ (Nat.mod_lt _ (by norm_num))

/-- All four characters of a four-digit zero-padded field are digits. -/
theorem pad4_digits (n : Nat) : ∀ c ∈ (pad4 n).data, isAsciiDigit c = true := by
  intro c hc
  simp [pad4] at hc
  rcases hc with rfl | rfl | rfl | rfl <;>
    exact digitChar_isDigit _ (Nat.mod_lt _ (by norm_num))

/-- C6: the internal run id is exactly
`lowercase(id) ++ "-" ++ env ++ "-" ++ timestamp ++ "-" ++ suffix` and matches
the documented regex (4-2-2 dashed date, 6-digit time, 10-character
lowercase-alphanumeric suffix). -/
theorem generate_internal_jobid_spec (jid env : String) (clock : FixedClock)
    (pick : Nat → Nat) (henv : env ≠ "") :
    generate_internal_jobid jid env clock pick =
      strLower jid ++ "-" ++ env ++ "-" ++ strftimeTimestamp clock ++ "-" ++
        randomChoices10 pick ∧
    matchesRunIdPattern (strLower jid) env (generate_internal_jobid jid env clock pick) := by
  have heq : generate_internal_jobid jid env clock pick =
      strLower jid ++ "-" ++ env ++ "-" ++ strftimeTimestamp clock ++ "-" ++
        randomChoices10 pick := by
    simp [generate_internal_jobid, pyOrStr, henv]
  have hdash : ("-" : String).data = ['-'] := rfl
  refine ⟨heq, ?_⟩
  rw [matchesRunIdPattern, heq]
  refine ⟨(pad4 clock.year).data, (pad2 clock.month).data, (pad2 clock.day).data,
    (pad2 clock.hour).data ++ (pad2 clock.minute).data ++ (pad2 clock.second).data,
    (randomChoices10 pick).data, ?_, rfl, rfl, rfl, ?_, ?_,
    pad4_digits clock.year, pad2_digits clock.month, pad2_digits clock.day, ?_, ?_⟩
  · simp [String.data_append, strftimeTimestamp, hdash]
  · simp [pad2]
  · simp [randomChoices10]
  · intro c hc
    simp only [List.mem_append] at hc
    rcases hc with (h | h) | h
    · exact pad2_digits clock.hour c h
    · exact pad2_digits clock.minute c h
    · exact pad2_digits clock.second c h
  · intro c hc
    simp only [randomChoices10] at hc
    obtain ⟨n, -, rfl⟩ := List.mem_map.1 hc
    exact alpha_isLowerAlnum _

/-- Witness for C6: the concrete demo scenario — id `"demo"`, env `"dev"`,
clock 2024-01-01 12:00:00, suffix `"abc1234567"`. -/
theorem generate_internal_jobid_witness :
    generate_internal_jobid "demo" "dev" ⟨2024, 1, 1, 12, 0, 0⟩ demoPick
      = "demo-dev-2024-01-01-120000-abc1234567" ∧
    matchesRunIdPattern (strLower "demo") "dev"
      (generate_internal_jobid "demo" "dev" ⟨2024, 1, 1, 12, 0, 0⟩ demoPick) :=
  ⟨by decide,
   (generate_internal_jobid_spec "demo" "dev" ⟨2024, 1, 1, 12, 0, 0⟩ demoPick (by decide)).2⟩

end Dataproc
